import Mathlib

/-
  Verification of the asynchronous zlib binding core (src/src/node_zlib.cc).

  The file shallowly embeds the C++ core: the seven codec variants, the
  per-context state (ZCtx), argument validation and windowBits adjustment in
  Init, buffer-slice staging in Write, the single transform invocation in
  Process, the completion delivery in After, and the release logic of the
  destructor.  The underlying zlib transform itself (deflate/inflate and
  their init functions) is an external collaborator; where its behaviour is
  needed it is modelled from the spec and marked as such.
-/

namespace NodeZlib

/- Constants from zlib.h, as used by the source. -/

def Z_NO_FLUSH : Int := 0

def Z_FINISH : Int := 4

def Z_OK : Int := 0

def Z_STREAM_END : Int := 1

def Z_STREAM_ERROR : Int := -2

def Z_DATA_ERROR : Int := -3

def Z_FILTERED : Int := 1

def Z_HUFFMAN_ONLY : Int := 2

def Z_RLE : Int := 3

def Z_FIXED : Int := 4

def Z_DEFAULT_STRATEGY : Int := 0

def Z_DEFLATED : Int := 8

/-- The enum node_zlib_mode (source lines 47-55): the seven codec variants. -/
inductive Mode where
  | DEFLATE
  | INFLATE
  | GZIP
  | GUNZIP
  | DEFLATERAW
  | INFLATERAW
  | UNZIP
  deriving DecidableEq, Repr

/-- Which of the two zlib transform families a call targets. -/
inductive TransformFamily where
  | deflate
  | inflate
  deriving DecidableEq, Repr

/-- The z_stream fields the core reads and writes.  Pointers next_in and
next_out are modelled as byte offsets from the base of the corresponding
backing buffer. -/
structure ZStream where
  avail_in : Nat
  next_in : Nat
  avail_out : Nat
  next_out : Nat
  deriving DecidableEq, Repr

/-- The per-context state of ZCtx (source lines 293-306). -/
structure ZCtx where
  init_done : Bool
  strm : ZStream
  level : Int
  windowBits : Int
  memLevel : Int
  strategy : Int
  flush : Int
  chunk_size : Nat
  deriving DecidableEq, Repr

/-- Error outcomes of the dispatch layer, as the spec names them: the
argument-validation asserts of Init map to InvalidConfig and the
slice-bounds asserts of Write map to OutOfBounds. -/
inductive ZErr where
  | InvalidConfig
  | OutOfBounds
  deriving DecidableEq, Repr

/-- A record of which underlying initialization function Init invoked and
with which arguments (source lines 267-287). -/
inductive TransformInit where
  | deflateInit2 (level method windowBits memLevel strategy : Int)
  | inflateInit2 (windowBits : Int)
  deriving DecidableEq, Repr

/-- Modelled from the spec: the underlying transform (zlib) is an external
collaborator, missing from the sources; its init is specified as
returning a TransformState for parameters within documented ranges and
InvalidConfig otherwise.  deflateInit2 accepts method Z_DEFLATED,
level -1..9, memLevel 1..9, strategy 0..4 and windowBits in 8..15
(zlib container), negated 8..15 (raw) or 24..31 (gzip container). -/
def deflateInit2_model (level method windowBits memLevel strategy : Int) : Int :=
  if method = Z_DEFLATED ∧ (-1 ≤ level ∧ level ≤ 9) ∧ (1 ≤ memLevel ∧ memLevel ≤ 9) ∧
      (0 ≤ strategy ∧ strategy ≤ 4) ∧
      ((8 ≤ windowBits ∧ windowBits ≤ 15) ∨ (-15 ≤ windowBits ∧ windowBits ≤ -8) ∨
        (24 ≤ windowBits ∧ windowBits ≤ 31))
  then Z_OK else Z_STREAM_ERROR

/-- Modelled from the spec: inflateInit2 accepts windowBits in 8..15 (zlib),
negated 8..15 (raw), 24..31 (gzip) or 40..47 (auto-detect zlib or gzip). -/
def inflateInit2_model (windowBits : Int) : Int :=
  if (8 ≤ windowBits ∧ windowBits ≤ 15) ∨ (-15 ≤ windowBits ∧ windowBits ≤ -8) ∨
      (24 ≤ windowBits ∧ windowBits ≤ 31) ∨ (40 ≤ windowBits ∧ windowBits ≤ 47)
  then Z_OK else Z_STREAM_ERROR

/-- Result of the inner static Init (source lines 238-291): the updated
context, the underlying init call it issued, and the return code of that
call.  The assert on err = Z_OK stands after init_done is already set. -/
structure InitCoreResult where
  ctx : ZCtx
  call : TransformInit
  err : Int
  deriving DecidableEq, Repr

/-- The inner static Init(ctx, level, windowBits, memLevel, strategy)
(source lines 238-291): stores the parameters, applies the mode-dependent
windowBits adjustment in sequence (GZIP and GUNZIP add 16, UNZIP adds 32,
the raw variants negate), invokes deflateInit2 for the compressing modes
and inflateInit2 for the decompressing modes, then sets init_done := true
before the return code is checked.  The zalloc, zfree and opaque fields
are not modelled. -/
def ZCtx.initCtx (mode : Mode) (ctx : ZCtx)
    (level windowBits memLevel strategy : Int) : InitCoreResult :=
  let wb1 := if mode = Mode.GZIP ∨ mode = Mode.GUNZIP then windowBits + 16 else windowBits
  let wb2 := if mode = Mode.UNZIP then wb1 + 32 else wb1
  let wb3 := if mode = Mode.DEFLATERAW ∨ mode = Mode.INFLATERAW then -wb2 else wb2
  let call := match mode with
    | Mode.DEFLATE | Mode.GZIP | Mode.DEFLATERAW =>
        TransformInit.deflateInit2 level Z_DEFLATED wb3 memLevel strategy
    | Mode.INFLATE | Mode.GUNZIP | Mode.INFLATERAW | Mode.UNZIP =>
        TransformInit.inflateInit2 wb3
  let err := match call with
    | TransformInit.deflateInit2 lv m w ml st => deflateInit2_model lv m w ml st
    | TransformInit.inflateInit2 w => inflateInit2_model w
  let ctx2 := { ctx with level := level, windowBits := wb3, memLevel := memLevel,
                         strategy := strategy, flush := Z_NO_FLUSH, init_done := true }
  { ctx := ctx2, call := call, err := err }

/-- The validation performed by the argument-level Init (source lines
218-232): windowBits in 8..15, level in -1..9, memLevel in 1..9 and
strategy one of the five known enum values. -/
def validConfigArgs (windowBits level memLevel strategy : Int) : Prop :=
  (8 ≤ windowBits ∧ windowBits ≤ 15) ∧ (-1 ≤ level ∧ level ≤ 9) ∧
  (1 ≤ memLevel ∧ memLevel ≤ 9) ∧
  (strategy = Z_FILTERED ∨ strategy = Z_HUFFMAN_ONLY ∨ strategy = Z_RLE ∨
    strategy = Z_FIXED ∨ strategy = Z_DEFAULT_STRATEGY)

/-- The argument-level Init(windowBits, level, memLevel, strategy) (source
lines 209-236): each validation assert maps to an InvalidConfig failure
leaving the context untouched; on success the inner Init runs. -/
def ZCtx.init (mode : Mode) (ctx : ZCtx)
    (windowBits level memLevel strategy : Int) : Except ZErr ZCtx :=
  if ¬ (8 ≤ windowBits ∧ windowBits ≤ 15) then Except.error ZErr.InvalidConfig
  else if ¬ (-1 ≤ level ∧ level ≤ 9) then Except.error ZErr.InvalidConfig
  else if ¬ (1 ≤ memLevel ∧ memLevel ≤ 9) then Except.error ZErr.InvalidConfig
  else if ¬ (strategy = Z_FILTERED ∨ strategy = Z_HUFFMAN_ONLY ∨ strategy = Z_RLE ∨
      strategy = Z_FIXED ∨ strategy = Z_DEFAULT_STRATEGY) then
    Except.error ZErr.InvalidConfig
  else Except.ok (ZCtx.initCtx mode ctx level windowBits memLevel strategy).ctx

/-- The assert at the top of Write (source line 87): the context must have
been initialized before any write. -/
def ZCtx.writeAllowed (ctx : ZCtx) : Bool :=
  ctx.init_done

/-- Result of a successful Write dispatch: the context with the staged
stream fields, and the number of work items submitted to the pool (Write
calls uv_queue_work exactly once). -/
structure WriteStaged where
  ctx : ZCtx
  workQueued : Nat
  deriving DecidableEq, Repr

/-- Write(flush, in, in_off, in_len, out, out_off, out_len) (source lines
81-142).  Buffers are modelled by their lengths; input = none is the null
flush-only marker, for which the source stages a one-byte local with
in_len = 0 and in_off = 0.  The two slice-bounds asserts map to
OutOfBounds; on success the stream fields, flush mode and chunk_size are
staged and one work item is queued. -/
def ZCtx.write (ctx : ZCtx) (flush : Int) (input : Option Nat)
    (in_off in_len : Nat) (out_size out_off out_len : Nat) :
    Except ZErr WriteStaged :=
  match input with
  | none =>
      if out_off + out_len ≤ out_size then
        let ctx2 := { ctx with strm := (⟨0, 0, out_len, out_off⟩ : ZStream),
                               flush := flush, chunk_size := out_len }
        Except.ok { ctx := ctx2, workQueued := 1 }
      else Except.error ZErr.OutOfBounds
  | some in_size =>
      if in_off + in_len ≤ in_size then
        if out_off + out_len ≤ out_size then
          let ctx2 := { ctx with strm := (⟨in_len, in_off, out_len, out_off⟩ : ZStream),
                                 flush := flush, chunk_size := out_len }
          Except.ok { ctx := ctx2, workQueued := 1 }
        else Except.error ZErr.OutOfBounds
      else Except.error ZErr.OutOfBounds

/-- The switch in Process (source lines 158-172): deflate for the DEFLATE,
GZIP and DEFLATERAW modes, inflate for the UNZIP, INFLATE, GUNZIP and
INFLATERAW modes. -/
def processFamily : Mode → TransformFamily
  | Mode.DEFLATE | Mode.GZIP | Mode.DEFLATERAW => TransformFamily.deflate
  | Mode.UNZIP | Mode.INFLATE | Mode.GUNZIP | Mode.INFLATERAW => TransformFamily.inflate

/-- Process (source lines 149-178), run by the worker pool: one invocation
of the underlying transform against the staged stream, selected by mode.
The transform is external, so it is a parameter: it maps the family, the
staged stream and the flush mode to the post-transform stream and a return
code.  The source additionally asserts the code is not Z_STREAM_ERROR; it
does not loop and does not inspect the code otherwise. -/
def ZCtx.process (step : TransformFamily → ZStream → Int → ZStream × Int)
    (mode : Mode) (ctx : ZCtx) : ZCtx × Int :=
  let r := step (processFamily mode) ctx.strm ctx.flush
  ({ ctx with strm := r.1 }, r.2)

/-- What After (source lines 181-198) hands to the callback of the write:
two integers, the post-transform avail_in and avail_out.  Nothing else is
delivered. -/
structure Delivery where
  cbAvailIn : Nat
  cbAvailOut : Nat
  deriving DecidableEq, Repr

/-- After (source lines 181-198): reads avail_in and avail_out off the
context and calls the callback with exactly those two values. -/
def ZCtx.after (ctx : ZCtx) : Delivery :=
  ⟨ctx.strm.avail_in, ctx.strm.avail_out⟩

/-- The two zlib teardown functions. -/
inductive ReleaseCall where
  | deflateEnd
  | inflateEnd
  deriving DecidableEq, Repr

/-- The destructor (source lines 72-78): deflateEnd for the DEFLATE, GZIP
and DEFLATERAW modes, inflateEnd for the INFLATE, GUNZIP and INFLATERAW
modes, and nothing for UNZIP, which both branches omit.  The context is
taken as an argument to record that the destructor never consults it: in
particular init_done is not checked before releasing. -/
def ZCtx.destroyRelease (mode : Mode) (_ctx : ZCtx) : Option ReleaseCall :=
  if mode = Mode.DEFLATE ∨ mode = Mode.GZIP ∨ mode = Mode.DEFLATERAW then
    some ReleaseCall.deflateEnd
  else if mode = Mode.INFLATE ∨ mode = Mode.GUNZIP ∨ mode = Mode.INFLATERAW then
    some ReleaseCall.inflateEnd
  else none

/- Spec-side definitions, for comparison with the source embedding. -/

/-- Modelled from the spec (claim C5 wording): the windowBits adjustment
table of the Codec Registry, applied exactly once per variant. -/
def adjustWindowBitsSpec : Mode → Int → Int
  | Mode.GZIP, wb => wb + 16
  | Mode.GUNZIP, wb => wb + 16
  | Mode.UNZIP, wb => wb + 32
  | Mode.DEFLATERAW, wb => -wb
  | Mode.INFLATERAW, wb => -wb
  | Mode.DEFLATE, wb => wb
  | Mode.INFLATE, wb => wb

/-- Modelled from the spec (claim C5 wording): compressing variants
initialize the transform with level, adjusted windowBits, memLevel and
strategy; decompressing variants with the adjusted windowBits only. -/
def expectedInitCall (mode : Mode) (level windowBits memLevel strategy : Int) :
    TransformInit :=
  match mode with
  | Mode.DEFLATE | Mode.GZIP | Mode.DEFLATERAW =>
      TransformInit.deflateInit2 level Z_DEFLATED
        (adjustWindowBitsSpec mode windowBits) memLevel strategy
  | Mode.INFLATE | Mode.GUNZIP | Mode.INFLATERAW | Mode.UNZIP =>
      TransformInit.inflateInit2 (adjustWindowBitsSpec mode windowBits)

/- Test fixtures: a concrete empty stream and context, and an initialized
context obtained through initCtx. -/

def zstream0 : ZStream := ⟨0, 0, 0, 0⟩

def ctx0 : ZCtx :=
  { init_done := false, strm := zstream0, level := 0, windowBits := 0,
    memLevel := 0, strategy := 0, flush := 0, chunk_size := 0 }

def ctxReady : ZCtx := (ZCtx.initCtx Mode.DEFLATE ctx0 6 15 8 0).ctx

/- Helper projections on Except results. -/

def isOOB {α : Type} : Except ZErr α → Bool
  | Except.error ZErr.OutOfBounds => true
  | _ => false

def workQueuedOf : Except ZErr WriteStaged → Nat
  | Except.ok w => w.workQueued
  | Except.error _ => 0

/- Round-trip model.  The compression algorithm itself is an external
collaborator ("assume a correct, already-implemented streaming codec
primitive"), so only the container formats the variants select are
modelled: the compressed body is kept abstract as the byte sequence
itself, the zlib container prepends the two-byte zlib header and the gzip
container prepends the two-byte gzip magic.  Bytes are Nat values. -/

/-- Modelled from the spec: the byte stream emitted by a compressing
variant over a whole input.  DEFLATE selects the zlib container, GZIP the
gzip container, DEFLATERAW the headerless raw format.  Decompressing
variants emit nothing. -/
def compressBytes : Mode → List Nat → List Nat
  | Mode.DEFLATE, s => 120 :: 156 :: s
  | Mode.GZIP, s => 31 :: 139 :: s
  | Mode.DEFLATERAW, s => s
  | _, _ => []

/-- Modelled from the spec: INFLATE decodes the zlib container. -/
def inflateBytes : List Nat → Option (List Nat)
  | 120 :: 156 :: rest => some rest
  | _ => none

/-- Modelled from the spec: GUNZIP decodes the gzip container. -/
def gunzipBytes : List Nat → Option (List Nat)
  | 31 :: 139 :: rest => some rest
  | _ => none

/-- Modelled from the spec: INFLATERAW decodes the headerless raw format. -/
def inflateRawBytes (c : List Nat) : Option (List Nat) :=
  some c

/-- Modelled from the spec: UNZIP auto-detects the container by the leading
byte, accepting both the gzip and the zlib containers. -/
def unzipBytes (c : List Nat) : Option (List Nat) :=
  match c with
  | 31 :: _ => gunzipBytes c
  | _ => inflateBytes c

/-- Modelled from the spec: the whole-stream decode of each decompressing
variant.  Compressing variants decode nothing. -/
def decompressBytes : Mode → List Nat → Option (List Nat)
  | Mode.INFLATE, c => inflateBytes c
  | Mode.GUNZIP, c => gunzipBytes c
  | Mode.INFLATERAW, c => inflateRawBytes c
  | Mode.UNZIP, c => unzipBytes c
  | _, _ => none

/-- State of the chunked-compression driver: input accepted by past Writes
that is still internal, the output emitted so far, and the finished flag. -/
structure CompressorCtx where
  pending : List Nat
  out : List Nat
  finished : Bool
  deriving DecidableEq, Repr

/-- Modelled from the spec: one Write against a compressing context.  A
non-finish Write hands the chunk to the transform, which may retain it
internally; the final Write with the finish flush drains everything and
emits the complete container. -/
def compressorWrite (m : Mode) (st : CompressorCtx) (chunk : List Nat)
    (flush : Int) : CompressorCtx :=
  if flush = Z_FINISH then
    { pending := [], out := st.out ++ compressBytes m (st.pending ++ chunk),
      finished := true }
  else
    { st with pending := st.pending ++ chunk }

/-- Compressing a sequence of chunks fully: repeated Writes with no flush,
ended by a final empty Write with the finish flush. -/
def compressFull (m : Mode) (chunks : List (List Nat)) : List Nat :=
  (compressorWrite m
    (chunks.foldl (fun st c => compressorWrite m st c Z_NO_FLUSH)
      { pending := [], out := [], finished := false })
    [] Z_FINISH).out

/-- Decompressing a sequence of chunks fully: the repeated Writes feed the
concatenation of the chunks to the decoding variant. -/
def decompressFull (m : Mode) (chunks : List (List Nat)) : Option (List Nat) :=
  decompressBytes m chunks.flatten

/-- The compatible compressor/decompressor pairings named by the spec. -/
def compatiblePairs : List (Mode × Mode) :=
  [(Mode.DEFLATE, Mode.INFLATE), (Mode.DEFLATERAW, Mode.INFLATERAW),
   (Mode.GZIP, Mode.GUNZIP), (Mode.GZIP, Mode.UNZIP), (Mode.DEFLATE, Mode.UNZIP)]

/- Concrete transform steps used as test fixtures for the process and
completion theorems. -/

def stepOkW : TransformFamily → ZStream → Int → ZStream × Int :=
  fun _ s _ => (s, Z_OK)

def stepDataErrW : TransformFamily → ZStream → Int → ZStream × Int :=
  fun _ s _ => (s, Z_DATA_ERROR)

def stagedW : WriteStaged :=
  { ctx := { ctx0 with strm := (⟨1, 0, 2, 0⟩ : ZStream), flush := 4, chunk_size := 2 },
    workQueued := 1 }

/- Theorems. -/

/-- Claim C5: at Init the windowBits adjustment is applied exactly once
according to the variant (GZIP and GUNZIP add 16, UNZIP adds 32, the raw
variants negate, the others leave it unchanged), and the compressing
variants then initialize the transform with level, adjusted windowBits,
memLevel and strategy while the decompressing variants initialize it with
the adjusted windowBits only. -/
theorem C5_windowBits_adjustment :
    ∀ (mode : Mode) (ctx : ZCtx) (level windowBits memLevel strategy : Int),
      (ZCtx.initCtx mode ctx level windowBits memLevel strategy).ctx.windowBits
          = adjustWindowBitsSpec mode windowBits ∧
      (ZCtx.initCtx mode ctx level windowBits memLevel strategy).call
          = expectedInitCall mode level windowBits memLevel strategy := by
  intro mode ctx level windowBits memLevel strategy
  cases mode <;>
    simp [ZCtx.initCtx, adjustWindowBitsSpec, expectedInitCall]

/-- Claim C6: each work item invokes the underlying transform exactly once
against the staged stream, deflate for the DEFLATE, GZIP and DEFLATERAW
variants and inflate for the others; the post-process stream is exactly
the output of that single invocation, so the core never loops to drain
remaining input. -/
theorem C6_process_single_invocation :
    ∀ (step : TransformFamily → ZStream → Int → ZStream × Int)
      (mode : Mode) (ctx : ZCtx),
      (ZCtx.process step mode ctx).1.strm
          = (step (processFamily mode) ctx.strm ctx.flush).1 ∧
      (ZCtx.process step mode ctx).2
          = (step (processFamily mode) ctx.strm ctx.flush).2 ∧
      processFamily Mode.DEFLATE = TransformFamily.deflate ∧
      processFamily Mode.GZIP = TransformFamily.deflate ∧
      processFamily Mode.DEFLATERAW = TransformFamily.deflate ∧
      processFamily Mode.INFLATE = TransformFamily.inflate ∧
      processFamily Mode.GUNZIP = TransformFamily.inflate ∧
      processFamily Mode.INFLATERAW = TransformFamily.inflate ∧
      processFamily Mode.UNZIP = TransformFamily.inflate := by
  intro step mode ctx
  exact ⟨rfl, rfl, rfl, rfl, rfl, rfl, rfl, rfl, rfl⟩

/-- Claim C10: the inner Init sets init_done to true unconditionally, for
every mode and every parameter combination, before the return code of the
underlying initialization is checked; the precondition check of Write then
passes.  At a windowBits value the underlying init rejects, the recorded
return code differs from Z_OK and the context is still marked
initialized. -/
theorem C10_init_done_set_unconditionally :
    (∀ (mode : Mode) (ctx : ZCtx) (level windowBits memLevel strategy : Int),
        (ZCtx.initCtx mode ctx level windowBits memLevel strategy).ctx.init_done
            = true ∧
        ZCtx.writeAllowed
            (ZCtx.initCtx mode ctx level windowBits memLevel strategy).ctx = true) ∧
    ((ZCtx.initCtx Mode.DEFLATE ctx0 6 100 8 0).err ≠ Z_OK ∧
      (ZCtx.initCtx Mode.DEFLATE ctx0 6 100 8 0).ctx.init_done = true) := by
  refine ⟨fun mode ctx level windowBits memLevel strategy => ⟨rfl, rfl⟩, ?_, rfl⟩
  decide

/-- Claim C9, evaluated on the code: the destructor releases nothing for
the UNZIP variant although Init allocates inflate state for it (the call
it issues is inflateInit2 with the auto-detect windowBits), and for the
other variants it releases without consulting init_done, here on a
never-initialized context. -/
theorem C9_destructor_release :
    ZCtx.destroyRelease Mode.UNZIP ctxReady = none ∧
    (ZCtx.initCtx Mode.UNZIP ctx0 6 15 8 0).call = TransformInit.inflateInit2 47 ∧
    ZCtx.destroyRelease Mode.DEFLATE ctx0 = some ReleaseCall.deflateEnd ∧
    ctx0.init_done = false := by
  decide

/-- Claim C8, amended: the completion delivery is a function of the
post-transform stream alone; the return code of the transform never
reaches it, so two runs whose single transform invocations return the same
stream but different codes deliver identical results, and nothing is
thrown across the thread boundary. -/
theorem C8_error_code_dropped :
    ∀ (step1 step2 : TransformFamily → ZStream → Int → ZStream × Int)
      (mode : Mode) (ctx : ZCtx),
      (step1 (processFamily mode) ctx.strm ctx.flush).1
          = (step2 (processFamily mode) ctx.strm ctx.flush).1 →
      ZCtx.after (ZCtx.process step1 mode ctx).1
          = ZCtx.after (ZCtx.process step2 mode ctx).1 := by
  intro step1 step2 mode ctx h
  simp [ZCtx.process, ZCtx.after, h]

/-- Witness for C8_error_code_dropped at a concrete context and two
concrete steps, one returning Z_DATA_ERROR and one returning Z_OK. -/
theorem C8_error_code_dropped_witness :
    ZCtx.after (ZCtx.process stepDataErrW Mode.GUNZIP ctxReady).1
      = ZCtx.after (ZCtx.process stepOkW Mode.GUNZIP ctxReady).1 :=
  C8_error_code_dropped stepDataErrW stepOkW Mode.GUNZIP ctxReady rfl

/-- Counterexample to claim C8 as stated: a decompression whose transform
invocation reports Z_DATA_ERROR produces a delivery identical to that of a
successful run, so the error is reported zero times through the delivery
channel, not exactly once. -/
theorem C8_data_error_invisible :
    (ZCtx.process stepDataErrW Mode.GUNZIP ctxReady).2 = Z_DATA_ERROR ∧
    (ZCtx.process stepOkW Mode.GUNZIP ctxReady).2 = Z_OK ∧
    (ZCtx.process stepDataErrW Mode.GUNZIP ctxReady).2
        ≠ (ZCtx.process stepOkW Mode.GUNZIP ctxReady).2 ∧
    ZCtx.after (ZCtx.process stepDataErrW Mode.GUNZIP ctxReady).1
      = ZCtx.after (ZCtx.process stepOkW Mode.GUNZIP ctxReady).1 := by
  refine ⟨rfl, rfl, by decide, rfl⟩

/-- Claim C2: for parameters within the documented bounds Init succeeds,
the context is Ready and the underlying initialization returns Z_OK; for
every combination violating a bound Init fails with InvalidConfig and no
context is produced. -/
theorem C2_init_validation :
    ∀ (mode : Mode) (ctx : ZCtx) (windowBits level memLevel strategy : Int),
      (validConfigArgs windowBits level memLevel strategy →
        ZCtx.init mode ctx windowBits level memLevel strategy
            = Except.ok (ZCtx.initCtx mode ctx level windowBits memLevel strategy).ctx ∧
        (ZCtx.initCtx mode ctx level windowBits memLevel strategy).ctx.init_done
            = true ∧
        (ZCtx.initCtx mode ctx level windowBits memLevel strategy).err = Z_OK) ∧
      (¬ validConfigArgs windowBits level memLevel strategy →
        ZCtx.init mode ctx windowBits level memLevel strategy
            = Except.error ZErr.InvalidConfig) := by
  intro mode ctx windowBits level memLevel strategy
  constructor
  · intro hv
    obtain ⟨hw, hl, hm, hs⟩ := hv
    refine ⟨?_, rfl, ?_⟩
    · unfold ZCtx.init
      rw [if_neg (not_not_intro hw), if_neg (not_not_intro hl),
          if_neg (not_not_intro hm), if_neg (not_not_intro hs)]
    · have hs2 : 0 ≤ strategy ∧ strategy ≤ 4 := by
        rcases hs with rfl | rfl | rfl | rfl | rfl <;> decide
      cases mode <;>
        simp [ZCtx.initCtx, deflateInit2_model, inflateInit2_model,
          Z_DEFLATED, Z_OK, Z_STREAM_ERROR] <;>
        omega
  · intro hv
    unfold validConfigArgs at hv
    unfold ZCtx.init
    by_cases h1 : 8 ≤ windowBits ∧ windowBits ≤ 15
    · rw [if_neg (not_not_intro h1)]
      by_cases h2 : -1 ≤ level ∧ level ≤ 9
      · rw [if_neg (not_not_intro h2)]
        by_cases h3 : 1 ≤ memLevel ∧ memLevel ≤ 9
        · rw [if_neg (not_not_intro h3)]
          have h4 : ¬ (strategy = Z_FILTERED ∨ strategy = Z_HUFFMAN_ONLY ∨
              strategy = Z_RLE ∨ strategy = Z_FIXED ∨ strategy = Z_DEFAULT_STRATEGY) :=
            fun h4 => hv ⟨h1, h2, h3, h4⟩
          rw [if_pos h4]
        · rw [if_pos h3]
      · rw [if_pos h2]
    · rw [if_pos h1]

/-- Witness for C2_init_validation: a valid configuration is accepted and
an out-of-range windowBits is rejected with InvalidConfig. -/
theorem C2_init_validation_witness :
    (ZCtx.init Mode.DEFLATE ctx0 15 6 8 0
        = Except.ok (ZCtx.initCtx Mode.DEFLATE ctx0 6 15 8 0).ctx ∧
      (ZCtx.initCtx Mode.DEFLATE ctx0 6 15 8 0).ctx.init_done = true ∧
      (ZCtx.initCtx Mode.DEFLATE ctx0 6 15 8 0).err = Z_OK) ∧
    ZCtx.init Mode.DEFLATE ctx0 16 6 8 0 = Except.error ZErr.InvalidConfig :=
  ⟨(C2_init_validation Mode.DEFLATE ctx0 15 6 8 0).1
      (by unfold validConfigArgs; decide),
   (C2_init_validation Mode.DEFLATE ctx0 16 6 8 0).2
      (by unfold validConfigArgs; decide)⟩

/-- Claim C3, amended: a Write fails synchronously with OutOfBounds, with
no work item queued, exactly when the input slice (when present) or the
output slice exceeds its backing buffer; a zero-length output view is not
rejected. -/
theorem C3_bounds_check :
    ∀ (ctx : ZCtx) (flush : Int) (input : Option Nat)
      (in_off in_len out_size out_off out_len : Nat),
      ZCtx.write ctx flush input in_off in_len out_size out_off out_len
          = Except.error ZErr.OutOfBounds
        ↔ ((∃ in_size, input = some in_size ∧ in_size < in_off + in_len) ∨
            out_size < out_off + out_len) := by
  intro ctx flush input in_off in_len out_size out_off out_len
  cases input <;> simp only [ZCtx.write] <;> split_ifs <;> simp <;> omega

/-- Counterexample to claim C3 as stated: a Write whose output view length
is 0 (with both slices within bounds) is not rejected with OutOfBounds; it
is accepted and one work item is queued. -/
theorem C3_zero_output_accepted :
    isOOB (ZCtx.write ctxReady 4 (some 1) 0 1 1 0 0) = false ∧
    workQueuedOf (ZCtx.write ctxReady 4 (some 1) 0 1 1 0 0) = 1 := by
  decide

/-- Claim C4: a valid Write stages avail_in = in_len, next_in = in_off from
the input base, avail_out = out_len, next_out = out_off from the output
base, records the flush mode and the chunk size, and queues exactly one
work item; with the null flush-only marker avail_in is staged as 0. -/
theorem C4_write_stages :
    ∀ (ctx : ZCtx) (flush : Int) (input : Option Nat)
      (in_off in_len out_size out_off out_len : Nat),
      (∀ in_size, input = some in_size → in_off + in_len ≤ in_size) →
      out_off + out_len ≤ out_size →
      ZCtx.write ctx flush input in_off in_len out_size out_off out_len
        = Except.ok
            { ctx := { ctx with
                       strm := (⟨(match input with | none => 0 | some _ => in_len),
                                 (match input with | none => 0 | some _ => in_off),
                                 out_len, out_off⟩ : ZStream),
                       flush := flush, chunk_size := out_len },
              workQueued := 1 } := by
  intro ctx flush input in_off in_len out_size out_off out_len hin hout
  cases input with
  | none => simp [ZCtx.write, hout]
  | some in_size => simp [ZCtx.write, hout, hin in_size rfl]

/-- Witness for C4_write_stages at a concrete in-bounds Write. -/
theorem C4_write_stages_witness :
    ZCtx.write ctx0 4 (some 1) 0 1 2 0 2
      = Except.ok
          { ctx := { ctx0 with
                     strm := (⟨1, 0, 2, 0⟩ : ZStream),
                     flush := 4, chunk_size := 2 },
            workQueued := 1 } := by
  exact C4_write_stages ctx0 4 (some 1) 0 1 2 0 2
    (fun in_size h => by injection h with h1; omega) (by decide)

/-- Claim C7: for a completed Write the delivery carries exactly the
post-transform avail_in and avail_out, so bytes consumed (original input
length minus the delivered avail_in) and bytes produced (original output
length minus the delivered avail_out) are derived from the post-transform
state; the staged chunk_size records the original output length and the
staged avail_in the original input length. -/
theorem C7_completion_delivery :
    ∀ (step : TransformFamily → ZStream → Int → ZStream × Int) (mode : Mode)
      (c : ZCtx) (flush : Int) (input : Option Nat)
      (in_off in_len out_size out_off out_len : Nat) (staged : WriteStaged),
      ZCtx.write c flush input in_off in_len out_size out_off out_len
          = Except.ok staged →
      ZCtx.after (ZCtx.process step mode staged.ctx).1
          = ⟨(ZCtx.process step mode staged.ctx).1.strm.avail_in,
             (ZCtx.process step mode staged.ctx).1.strm.avail_out⟩ ∧
      staged.ctx.strm.avail_in
            - (ZCtx.after (ZCtx.process step mode staged.ctx).1).cbAvailIn
          = staged.ctx.strm.avail_in
            - (ZCtx.process step mode staged.ctx).1.strm.avail_in ∧
      staged.ctx.chunk_size
            - (ZCtx.after (ZCtx.process step mode staged.ctx).1).cbAvailOut
          = staged.ctx.chunk_size
            - (ZCtx.process step mode staged.ctx).1.strm.avail_out ∧
      staged.ctx.chunk_size = out_len ∧
      staged.ctx.strm.avail_in = (match input with | none => 0 | some _ => in_len) ∧
      staged.ctx.strm.avail_out = out_len := by
  intro step mode c flush input in_off in_len out_size out_off out_len staged h
  refine ⟨rfl, rfl, rfl, ?_⟩
  cases input with
  | none =>
      simp only [ZCtx.write] at h
      split_ifs at h
      · rw [Except.ok.injEq] at h
        subst h
        exact ⟨rfl, rfl, rfl⟩
  | some in_size =>
      simp only [ZCtx.write] at h
      split_ifs at h
      · rw [Except.ok.injEq] at h
        subst h
        exact ⟨rfl, rfl, rfl⟩

/-- Witness for C7_completion_delivery at a concrete staged write and a
concrete transform step. -/
theorem C7_completion_delivery_witness :
    ZCtx.after (ZCtx.process stepOkW Mode.DEFLATE stagedW.ctx).1
        = ⟨(ZCtx.process stepOkW Mode.DEFLATE stagedW.ctx).1.strm.avail_in,
           (ZCtx.process stepOkW Mode.DEFLATE stagedW.ctx).1.strm.avail_out⟩ ∧
    stagedW.ctx.strm.avail_in
          - (ZCtx.after (ZCtx.process stepOkW Mode.DEFLATE stagedW.ctx).1).cbAvailIn
        = stagedW.ctx.strm.avail_in
          - (ZCtx.process stepOkW Mode.DEFLATE stagedW.ctx).1.strm.avail_in ∧
    stagedW.ctx.chunk_size
          - (ZCtx.after (ZCtx.process stepOkW Mode.DEFLATE stagedW.ctx).1).cbAvailOut
        = stagedW.ctx.chunk_size
          - (ZCtx.process stepOkW Mode.DEFLATE stagedW.ctx).1.strm.avail_out ∧
    stagedW.ctx.chunk_size = 2 ∧
    stagedW.ctx.strm.avail_in = 1 ∧
    stagedW.ctx.strm.avail_out = 2 := by
  exact C7_completion_delivery stepOkW Mode.DEFLATE ctx0 4 (some 1) 0 1 2 0 2
    stagedW rfl

/- Helper lemmas for the round-trip claim. -/

theorem compressorWrite_noflush (m : Mode) (st : CompressorCtx) (c : List Nat) :
    compressorWrite m st c Z_NO_FLUSH = { st with pending := st.pending ++ c } := by
  norm_num [compressorWrite, Z_NO_FLUSH, Z_FINISH]

theorem compressFull_foldl (m : Mode) (chunks : List (List Nat)) :
    ∀ st : CompressorCtx,
      chunks.foldl (fun st c => compressorWrite m st c Z_NO_FLUSH) st
        = { st with pending := st.pending ++ chunks.flatten } := by
  induction chunks with
  | nil => intro st; simp
  | cons c cs ih =>
      intro st
      rw [List.foldl_cons, compressorWrite_noflush, ih]
      simp

theorem compressFull_eq (m : Mode) (chunks : List (List Nat)) :
    compressFull m chunks = compressBytes m chunks.flatten := by
  unfold compressFull
  rw [compressFull_foldl]
  norm_num [compressorWrite, Z_NO_FLUSH, Z_FINISH]

/-- Claim C1: for every input chunking, compressing fully (repeated Writes
ended by a finish flush) and then decompressing the produced bytes fully,
under any re-chunking of them, yields exactly the original byte sequence,
for each compatible pair: deflate/inflate, deflateRaw/inflateRaw,
gzip/gunzip, gzip/unzip and zlib-deflate/unzip. -/
theorem C1_roundtrip :
    ∀ p : Mode × Mode, p ∈ compatiblePairs →
      ∀ chunks dchunks : List (List Nat),
        dchunks.flatten = compressFull p.1 chunks →
        decompressFull p.2 dchunks = some chunks.flatten := by
  intro p hp chunks dchunks h
  unfold decompressFull
  rw [h, compressFull_eq]
  simp only [compatiblePairs, List.mem_cons, List.not_mem_nil, or_false] at hp
  rcases hp with rfl | rfl | rfl | rfl | rfl <;> rfl

/-- Witness for C1_roundtrip: the gzip/unzip pair on the two-chunk input
consisting of bytes 7 and 8, with the compressed stream re-chunked. -/
theorem C1_roundtrip_witness :
    (Mode.GZIP, Mode.UNZIP) ∈ compatiblePairs ∧
    decompressFull Mode.UNZIP [[31], [139, 7, 8]]
        = some ([[7], [8]] : List (List Nat)).flatten :=
  ⟨by decide,
   C1_roundtrip (Mode.GZIP, Mode.UNZIP) (by decide) [[7], [8]]
     [[31], [139, 7, 8]] (by decide)⟩

end NodeZlib
